import Mathlib

/-!
# Verification of the seasonal particle engine (`src/script.js`)

Shallow embedding of the particle animation engine defined by
`createParticleEngine` in `src/script.js`, together with theorems checking
the natural-language specification against it.

Modelling conventions:
* JavaScript numbers are modelled as exact rationals (`ℚ`).
* `Math.random()` draws are modelled as explicit inputs: a function
  `g : Nat → ℚ` supplies the results of the successive `Math.random()`
  calls made by one source-level invocation, in source evaluation order.
* `Math.sin` is abstracted as a parameter `sinF : ℚ → ℚ`, and `Math.PI`
  as a parameter `pi : ℚ`; no theorem below depends on their values.
* `Math.hypot(dx, dy) || 1` is abstracted as a parameter `dist : ℚ`
  supplied per particle; no theorem below needs more than its sign.
* Frame scheduling (`requestAnimationFrame` / `cancelAnimationFrame`) is
  modelled by an explicit host state holding the list of scheduled,
  not-yet-fired, not-yet-cancelled callback handles.
-/

namespace GreetEngine

/-- A particle record, as built by `newParticle` (src/script.js 177-247). -/
structure Particle where
  x : ℚ
  y : ℚ
  vx : ℚ
  vy : ℚ
  r : ℚ
  ang : ℚ
  spin : ℚ
  type : String
  alpha : ℚ
  color : String
  z : ℚ
deriving DecidableEq

/-- A ripple record, as built by `addRipple` (src/script.js 281-283). -/
structure Ripple where
  x : ℚ
  y : ℚ
  r : ℚ
  alpha : ℚ
deriving DecidableEq

/-- A lens-flare record, as seeded by `setMode` for summer (src/script.js 270-276). -/
structure Flare where
  x : ℚ
  y : ℚ
  r : ℚ
  t : ℚ
  speed : ℚ
deriving DecidableEq

/-- The pointer state (src/script.js 143): position and frame-to-frame delta. -/
structure MouseState where
  x : ℚ
  y : ℚ
  vx : ℚ
  vy : ℚ
deriving DecidableEq

/-- `rnd(a, b)` (src/script.js 174): `Math.random() * (b - a) + a`, with the
`Math.random()` result passed explicitly as `g`. -/
def rnd (g a b : ℚ) : ℚ := g * (b - a) + a

/-- `clamp(v, a, b)` (src/script.js 175): `Math.max(a, Math.min(b, v))`. -/
def clamp (v a b : ℚ) : ℚ := max a (min b v)

/-- `newParticle()` (src/script.js 177-247).  `g i` is the result of the
i-th `Math.random()` call of this invocation in source evaluation order:
the base record consumes `g 0`-`g 4` (x, y, ang, spin, z) and each season
branch consumes `g 5` onward.  `pi` abstracts `Math.PI`; `W`, `H` are
`logicalW`, `logicalH`.  Note that the final `else` branch — reached both
for `"winter"` and for any unknown mode — builds the ember/snow (winter)
particle. -/
def newParticle (mode : String) (pi W H : ℚ) (g : Nat → ℚ) : Particle :=
  let base : Particle :=
    { x := rnd (g 0) 0 W, y := rnd (g 1) (-60) (H + 60), vx := 0, vy := 0,
      r := 1, ang := rnd (g 2) 0 (pi * 2), spin := rnd (g 3) (-0.05) 0.05,
      type := "dot", alpha := 1, color := "#fff", z := rnd (g 4) 0.4 1.2 }
  if mode = "spring" then
    { base with
      type := "petal"
      r := rnd (g 5) 3.5 7.5
      vx := rnd (g 6) (-0.28) 0.35
      vy := rnd (g 7) 0.18 0.55
      color := "rgba(255,140,170,0.96)"
      spin := rnd (g 8) (-0.06) 0.06 }
  else if mode = "summer" then
    if g 5 < 0.12 then
      { base with
        type := "leaf"
        r := rnd (g 6) 6 12
        vx := rnd (g 7) 0.1 0.6
        vy := rnd (g 8) 0.05 0.25
        color := "rgba(255,180,90,0.95)"
        spin := rnd (g 9) (-0.2) 0.2 }
    else
      { base with
        type := "dust"
        r := rnd (g 6) 0.8 2.8
        vx := rnd (g 7) 0.05 0.45
        vy := rnd (g 8) (-0.02) 0.18
        color := "rgba(255,205,110,0.9)"
        alpha := rnd (g 9) 0.35 0.9 }
  else if mode = "monsoon" then
    { base with
      type := "rain"
      r := rnd (g 5) 1.0 1.6
      vx := rnd (g 6) (-0.25) 0.2
      vy := rnd (g 7) 0.65 1.4
      color := "rgba(170,210,240,0.98)" }
  else if mode = "autumn" then
    { base with
      type := "leaf"
      r := rnd (g 5) 6 13
      vx := rnd (g 6) (-0.6) 0.45
      vy := rnd (g 7) 0.25 0.7
      color := "rgba(255,170,80,0.98)"
      spin := rnd (g 8) (-0.3) 0.3 }
  else if mode = "prewinter" then
    if g 5 < 0.25 then
      { base with
        type := "mist"
        r := rnd (g 6) 60 140
        vx := rnd (g 7) 0.02 0.12
        vy := rnd (g 8) (-0.02) 0.04
        alpha := rnd (g 9) 0.05 0.12 }
    else
      { base with
        type := "dewdrop"
        r := rnd (g 6) 1.4 3.6
        vx := rnd (g 7) (-0.2) 0.2
        vy := rnd (g 8) 0.08 0.35
        color := "rgba(220,240,255,0.96)" }
  else
    if g 5 < 0.12 then
      { base with
        type := "ember"
        r := rnd (g 6) 1.2 2.4
        vx := rnd (g 7) (-0.05) 0.05
        vy := rnd (g 8) (-0.06) (-0.02)
        color := "rgba(255,120,60,0.9)" }
    else
      { base with
        type := "snow"
        r := rnd (g 6) 1.4 3.8
        vx := rnd (g 7) (-0.2) 0.2
        vy := rnd (g 8) 0.08 0.32
        color := "rgba(240,248,255,0.96)" }

/-- `init(count)` (src/script.js 249-252): rebuild the pool with `count`
fresh particles; `G i` supplies the random draws of particle `i`. -/
def initPool (mode : String) (pi W H : ℚ) (G : Nat → Nat → ℚ) (count : Nat) :
    List Particle :=
  (List.range count).map fun i => newParticle mode pi W H (G i)

/-- The `maxCounts` table (src/script.js 158); `none` models a missing key. -/
def maxCounts (m : String) : Option Nat :=
  if m = "spring" then some 110
  else if m = "summer" then some 100
  else if m = "monsoon" then some 140
  else if m = "autumn" then some 120
  else if m = "winter" then some 90
  else if m = "prewinter" then some 90
  else none

/-- The simulation state owned by the engine closure: `parts`, `ripples`,
`flares`, `mode` (src/script.js 155-156).  Scheduling state (`running`,
`rafId`, `last`) is modelled separately by `Ctl` below. -/
structure SimState where
  parts : List Particle
  ripples : List Ripple
  flares : List Flare
  mode : String
deriving DecidableEq

/-- One flare seeded by `setMode` for summer (src/script.js 270-276);
flare `i` consumes the draws `fg (1+5*i)` .. `fg (5+5*i)`. -/
def seedFlare (pi W H : ℚ) (fg : Nat → ℚ) (i : Nat) : Flare :=
  { x := rnd (fg (1 + 5 * i)) 0 W, y := rnd (fg (2 + 5 * i)) 0 (H * 0.6),
    r := rnd (fg (3 + 5 * i)) 120 240, t := rnd (fg (4 + 5 * i)) 0 (pi * 2),
    speed := rnd (fg (5 + 5 * i)) 0.0002 0.0005 }

/-- `const n = 2 + Math.floor(rnd(0, 2))` (src/script.js 268); `fg 0` is the
`Math.random()` draw of `rnd(0, 2)`. -/
def flareCount (fg : Nat → ℚ) : Nat := (2 + ⌊rnd (fg 0) 0 2⌋).toNat

/-- `setMode(m)` (src/script.js 261-279): set the mode, rebuild the pool to
`maxCounts[mode] || 90` particles, reset the flare list, and seed 2-3
flares for summer.  The `ripples` list is not touched by the source. -/
def setMode (m : String) (pi W H : ℚ) (G : Nat → Nat → ℚ) (fg : Nat → ℚ)
    (st : SimState) : SimState :=
  let st1 : SimState :=
    { st with
      mode := m
      parts := initPool m pi W H G ((maxCounts m).getD 90) }
  if m = "summer" then
    { st1 with flares := (List.range (flareCount fg)).map (seedFlare pi W H fg) }
  else
    { st1 with flares := [] }

/-- `addRipple(x, y)` (src/script.js 281-283). -/
def addRipple (x y : ℚ) : Ripple := { x := x, y := y, r := 2, alpha := 0.35 }

/-- `reflow()` on one particle (src/script.js 254-259): re-clamp the
position into the current bounds; no other field is assigned. -/
def reflowParticle (W H : ℚ) (p : Particle) : Particle :=
  { p with
    x := clamp (p.x / W * W) 0 W
    y := clamp (p.y / H * H) (-50) (H + 50) }

/-- `reflow()` (src/script.js 254-259) over the whole pool. -/
def reflow (W H : ℚ) (parts : List Particle) : List Particle :=
  parts.map (reflowParticle W H)

/-- `const dt = Math.min(40, now - last)` (src/script.js 302). -/
def dtOf (now last : ℚ) : ℚ := min 40 (now - last)

/-- The pointer-influence factor (src/script.js 321):
`particlesToggle.checked && !prefersReduced ? Math.max(0, 1 - dist / 180) : 0`. -/
def influence (checked reduced : Bool) (dist : ℚ) : ℚ :=
  if checked = true ∧ reduced = false then max 0 (1 - dist / 180) else 0

/-- The velocity increments added by the mouse-wind interaction
(src/script.js 319-323); `dist` abstracts `Math.hypot(dx, dy) || 1`. -/
def mouseKick (checked reduced : Bool) (dx dy dist mvx mvy : ℚ) : ℚ × ℚ :=
  let infl := influence checked reduced dist
  (-dx / dist * 0.04 * infl + mvx * 0.002 * infl,
   -dy / dist * 0.02 * infl + mvy * 0.002 * infl)

/-- The season-specific forces (src/script.js 326-353), acting on a particle
after the mouse kick.  `sinF` abstracts `Math.sin`.  For an unknown mode no
branch of the `if`/`else if` chain applies and the particle is unchanged. -/
def seasonForce (sinF : ℚ → ℚ) (mode : String) (W H now dt : ℚ)
    (p : Particle) : Particle :=
  if mode = "spring" then
    { p with
      vx := p.vx + sinF (p.ang * 0.7 + now * 0.0005) * 0.01
      vy := p.vy + 0.006 * (dt / 16)
      ang := p.ang + p.spin * 0.01 }
  else if mode = "summer" then
    { p with
      vx := p.vx + sinF (p.y / H * 6 + now * 0.0008) * 0.02
      vy := p.vy + 0.002 * (dt / 16) }
  else if mode = "monsoon" then
    { p with
      vx := p.vx + sinF (now * 0.001 + p.x / W * 12) * 0.06
      vy := p.vy + 0.02 * (dt / 16) }
  else if mode = "autumn" then
    { p with
      vx := p.vx + sinF (p.y / H * 8 + p.ang) * 0.035
      vy := p.vy + 0.008 * (dt / 16)
      ang := p.ang + p.spin * 0.018 }
  else if mode = "prewinter" then
    if p.type = "mist" then
      { p with vx := p.vx + 0.004 }
    else
      { p with vy := p.vy + 0.004 * (dt / 16) }
  else if mode = "winter" then
    let p1 :=
      if p.type = "ember" then { p with vy := p.vy - 0.006 * (dt / 16) }
      else { p with vy := p.vy + 0.004 * (dt / 16) }
    { p1 with vx := p1.vx + sinF (now * 0.0006 + p1.y * 0.02) * 0.006 }
  else p

/-- Damping and position integration (src/script.js 355-359): the damping
factors are applied once, unscaled by `dt`; the position advances by the
damped velocity times `dt / 16` times the depth factor `z`. -/
def integrate (dt : ℚ) (p : Particle) : Particle :=
  let vx := p.vx * 0.995
  let vy := p.vy * 0.997
  { p with
    vx := vx
    vy := vy
    x := p.x + vx * (dt / 16) * p.z
    y := p.y + vy * (dt / 16) * p.z }

/-- The recycling test (src/script.js 452): the particle left the visible
bounds by more than the allowed margin. -/
def outOfBounds (W H : ℚ) (p : Particle) : Prop :=
  p.y > H + 80 ∨ p.x < -140 ∨ p.x > W + 140 ∨ p.y < -140

instance (W H : ℚ) (p : Particle) : Decidable (outOfBounds W H p) := by
  unfold outOfBounds; infer_instance

/-- The full per-particle velocity/position update of one tick
(src/script.js 317-359): mouse kick, season force, damping, integration. -/
def updateParticle (mode : String) (checked reduced : Bool) (sinF : ℚ → ℚ)
    (W H now dt : ℚ) (m : MouseState) (dist : ℚ) (p : Particle) : Particle :=
  let kick := mouseKick checked reduced (p.x - m.x) (p.y - m.y) dist m.vx m.vy
  integrate dt
    (seasonForce sinF mode W H now dt
      { p with vx := p.vx + kick.1, vy := p.vy + kick.2 })

/-- What one tick does to one pool slot (src/script.js 317-457): update the
particle, spawn a ripple if it is a rain particle past the lower edge
(409-411, inside the draw of the already-updated particle), and recycle the
slot with a fresh particle repositioned just above the top edge if the
updated particle is out of bounds (451-457).  `g` supplies the randoms of
the recycling `newParticle()` call (indices 0-9) and of the two position
overrides of lines 455-456 (indices 100 and 101). -/
def stepSlot (mode : String) (checked reduced : Bool) (sinF : ℚ → ℚ)
    (pi W H now dt : ℚ) (m : MouseState) (dist : ℚ) (g : Nat → ℚ)
    (p : Particle) : Particle × Option Ripple :=
  let p3 := updateParticle mode checked reduced sinF W H now dt m dist p
  let rip : Option Ripple :=
    if p3.type = "rain" ∧ p3.y > H - 2 then some (addRipple p3.x (H - 3))
    else none
  let slot : Particle :=
    if outOfBounds W H p3 then
      { newParticle mode pi W H g with
        x := g 100 * W
        y := -10 - g 101 * 40 }
    else p3
  (slot, rip)

/-- The particle loop of one tick (src/script.js 317-458), processing slots
in order from index `i`; particle `i` uses `dists i` as its `Math.hypot`
value and `G i` as its recycling random draws.  Returns the new pool and the
ripples pushed during the pass, in push order. -/
def stepParts (mode : String) (checked reduced : Bool) (sinF : ℚ → ℚ)
    (pi W H now dt : ℚ) (m : MouseState) (dists : Nat → ℚ)
    (G : Nat → Nat → ℚ) : Nat → List Particle → List Particle × List Ripple
  | _, [] => ([], [])
  | i, p :: rest =>
    let hd := stepSlot mode checked reduced sinF pi W H now dt m (dists i) (G i) p
    let tl := stepParts mode checked reduced sinF pi W H now dt m dists G (i + 1) rest
    (hd.1 :: tl.1, hd.2.toList ++ tl.2)

/-- The ripple pass of one tick (src/script.js 461-471): each ripple grows
by 0.9, fades by 0.015, and is removed once its opacity is at or below
zero.  The source's backwards-iterating splice preserves relative order, so
it is a map followed by a filter. -/
def ageRipples (rs : List Ripple) : List Ripple :=
  (rs.map fun rp => { rp with r := rp.r + 0.9, alpha := rp.alpha - 0.015 }).filter
    fun rp => 0 < rp.alpha

/-- The flare phase advance performed by `drawFlare` (src/script.js 298):
`f.t += f.speed * (prefersReduced ? 0 : 1)`. -/
def advanceFlare (reduced : Bool) (f : Flare) : Flare :=
  { f with t := f.t + f.speed * (if reduced = true then 0 else 1) }

/-- The simulation part of one running tick `step(now)`
(src/script.js 310-471): flare drawing for summer (313-314), the particle
loop, and the ripple pass — the pass runs over the old ripples followed by
the ones pushed this tick, in order.  The `dt` cap, `last` update, running
check and rescheduling (301-308, 474) belong to the `Ctl` layer below. -/
def engineTick (checked reduced : Bool) (sinF : ℚ → ℚ) (pi W H now dt : ℚ)
    (m : MouseState) (dists : Nat → ℚ) (G : Nat → Nat → ℚ)
    (st : SimState) : SimState :=
  let flares1 :=
    if st.mode = "summer" then st.flares.map (advanceFlare reduced) else st.flares
  let pr := stepParts st.mode checked reduced sinF pi W H now dt m dists G 0 st.parts
  { st with
    parts := pr.1
    flares := flares1
    ripples := ageRipples (st.ripples ++ pr.2) }

/-- The host's scheduling state: the handles of callbacks that have been
requested via `requestAnimationFrame` and neither fired nor been cancelled,
plus a fresh-handle counter. -/
structure Host where
  pending : List Nat
  nextId : Nat
deriving DecidableEq

/-- `requestAnimationFrame(step)`: schedule a callback, returning its handle. -/
def raf (h : Host) : Host × Nat :=
  ({ pending := h.pending ++ [h.nextId], nextId := h.nextId + 1 }, h.nextId)

/-- `cancelAnimationFrame(id)`: drop a scheduled callback. -/
def caf (h : Host) (id : Nat) : Host :=
  { h with pending := h.pending.filter fun x => x ≠ id }

/-- The engine's lifecycle state (src/script.js 156-157): the `running`
flag, the stored frame handle `rafId`, the tick time reference `last`, and
the host's scheduling state.  `cleared` records that the engine's last
surface operation was the `clearRect` of `pause()`; a running tick redraws
the (always nonempty) pool after its own clear, so it resets the flag. -/
structure Ctl where
  running : Bool
  rafId : Option Nat
  last : ℚ
  cleared : Bool
  host : Host
deriving DecidableEq

/-- Engine construction (src/script.js 154-157, 494-495): `running = true`,
then `rafId = requestAnimationFrame(step)` — unconditionally.  The source
consults `prefersReduced` in `resume()` (487) and inside ticks, but not
here: the `reduced` argument is deliberately unused, mirroring line 495. -/
def constructCtl (reduced : Bool) (last0 : ℚ) (h : Host) : Ctl :=
  let r := raf h
  { running := true, rafId := some r.2, last := last0, cleared := true,
    host := r.1 }

/-- `pause()` (src/script.js 477-484): stop, cancel any stored frame
handle, clear the surface. -/
def pauseCtl (c : Ctl) : Ctl :=
  let c1 := { c with running := false }
  let c2 :=
    match c1.rafId with
    | some id => { c1 with rafId := none, host := caf c1.host id }
    | none => c1
  { c2 with cleared := true }

/-- `resume()` (src/script.js 486-492): re-arm only when not reduced and
not already running; reset the time reference to the current time. -/
def resumeCtl (reduced : Bool) (now : ℚ) (c : Ctl) : Ctl :=
  if reduced = false ∧ c.running = false then
    let r := raf c.host
    { c with running := true, last := now, rafId := some r.2, host := r.1 }
  else c

/-- The host fires scheduled callback `id`, invoking `step(now)`
(src/script.js 301-308, 474): the handle leaves the pending list, `last`
is set (303, before the running check), and either the tick runs and
reschedules (474) or the paused engine drops its handle and stops (305-308). -/
def fireStep (now : ℚ) (id : Nat) (c : Ctl) : Ctl :=
  let c1 := { c with host := caf c.host id, last := now }
  if c1.running = true then
    let r := raf c1.host
    { c1 with rafId := some r.2, cleared := false, host := r.1 }
  else
    { c1 with rafId := none }

/-- The lifecycle states reachable from engine construction through the
public operations and host callback firing. -/
inductive Reach (reduced : Bool) : Ctl → Prop
  | construct (last0 : ℚ) (n : Nat) :
      Reach reduced (constructCtl reduced last0 { pending := [], nextId := n })
  | pause {c : Ctl} : Reach reduced c → Reach reduced (pauseCtl c)
  | resume {c : Ctl} (now : ℚ) : Reach reduced c →
      Reach reduced (resumeCtl reduced now c)
  | fire {c : Ctl} (now : ℚ) (id : Nat) (hid : id ∈ c.host.pending) :
      Reach reduced c → Reach reduced (fireStep now id c)

/-- The scheduling invariant: the host's pending list is exactly the
content of the engine's stored handle, and a paused engine stores none. -/
def CtlInv (c : Ctl) : Prop :=
  c.host.pending = c.rafId.toList ∧ (c.running = false → c.rafId = none)

/-- A concrete monsoon rain particle near the lower edge of a 100x100
surface, used as a test fixture. -/
def sampleRain : Particle :=
  { x := 50, y := 99, vx := 0, vy := 1, r := 1.3, ang := 0, spin := 0,
    type := "rain", alpha := 1, color := "rgba(170,210,240,0.98)", z := 1 }

theorem reach_inv {reduced : Bool} {c : Ctl} (h : Reach reduced c) : CtlInv c := by
  induction h with
  | construct last0 n =>
      refine ⟨?_, ?_⟩
      · simp [constructCtl, raf]
      · intro hr
        simp [constructCtl, raf] at hr
  | @pause c hc ih =>
      obtain ⟨h1, h2⟩ := ih
      cases hr : c.rafId with
      | none =>
          refine ⟨?_, fun _ => ?_⟩ <;> simp [pauseCtl, hr, caf, h1]
      | some id =>
          have hp : c.host.pending = [id] := by rw [h1, hr]; rfl
          refine ⟨?_, fun _ => ?_⟩ <;> simp [pauseCtl, hr, caf, hp]
  | @resume c now hc ih =>
      obtain ⟨h1, h2⟩ := ih
      by_cases hg : reduced = false ∧ c.running = false
      · have hnone : c.rafId = none := h2 hg.2
        refine ⟨?_, fun hr => ?_⟩
        · simp [resumeCtl, hg, raf, h1, hnone]
        · simp [resumeCtl, hg, raf] at hr
      · refine ⟨?_, fun hr => ?_⟩
        · simpa [resumeCtl, hg] using h1
        · simp only [resumeCtl, if_neg hg] at hr ⊢
          exact h2 hr
  | @fire c now id hid hc ih =>
      obtain ⟨h1, h2⟩ := ih
      rw [h1] at hid
      cases hr : c.rafId with
      | none => rw [hr] at hid; simp at hid
      | some j =>
          rw [hr] at hid
          simp only [Option.toList_some, List.mem_singleton] at hid
          subst hid
          have hp : c.host.pending = [id] := by rw [h1, hr]; rfl
          cases hrun : c.running with
          | true =>
              refine ⟨?_, fun hr2 => ?_⟩
              · simp [fireStep, hrun, caf, raf, hp]
              · simp [fireStep, hrun, caf, raf] at hr2
          | false =>
              refine ⟨?_, fun _ => ?_⟩ <;> simp [fireStep, hrun, caf, raf, hp]

/-- C1 counterexample: the claim says that with reduced-motion true at
construction no animation frame is ever scheduled, but engine construction
(src/script.js 495) calls `requestAnimationFrame` unconditionally: the
freshly constructed engine has a scheduled frame. -/
theorem C1_counterexample :
    (constructCtl true 0 { pending := [], nextId := 0 }).host.pending ≠ [] := by
  simp [constructCtl, raf]

/-- C1 (amended): with reduced-motion true at construction the engine still
schedules: construction stores a frame handle and requests a frame
(src/script.js 495), and every tick fired while running requests the next
(474).  Only `resume()` consults the flag (487): with reduced-motion true it
never schedules a frame and leaves the state unchanged. -/
theorem C1_amended (last0 now : ℚ) (h : Host) (c : Ctl) (id : Nat)
    (hrun : c.running = true) :
    (constructCtl true last0 h).rafId = some h.nextId ∧
    (constructCtl true last0 h).host.pending = h.pending ++ [h.nextId] ∧
    resumeCtl true now c = c ∧
    (fireStep now id c).rafId.isSome = true ∧
    (fireStep now id c).host.pending ≠ [] := by
  refine ⟨rfl, rfl, ?_, ?_, ?_⟩
  · simp [resumeCtl]
  · simp [fireStep, hrun, caf, raf]
  · simp [fireStep, hrun, caf, raf]

/-- Witness for C1 (amended) at a concrete construction state. -/
theorem C1_witness :
    (constructCtl true 0 { pending := [], nextId := 0 }).running = true ∧
    ((constructCtl true 1 { pending := [], nextId := 4 }).rafId = some 4 ∧
      (constructCtl true 1 { pending := [], nextId := 4 }).host.pending
        = [] ++ [4] ∧
      resumeCtl true 5 (constructCtl true 0 { pending := [], nextId := 0 })
        = constructCtl true 0 { pending := [], nextId := 0 } ∧
      (fireStep 5 0 (constructCtl true 0 { pending := [], nextId := 0 })).rafId.isSome
        = true ∧
      (fireStep 5 0 (constructCtl true 0 { pending := [], nextId := 0 })).host.pending
        ≠ []) :=
  ⟨rfl, C1_amended 1 5 { pending := [], nextId := 4 }
    (constructCtl true 0 { pending := [], nextId := 0 }) 0 rfl⟩

/-- C7: from any reachable lifecycle state, at most one frame is
outstanding; `pause()` halts, drops and cancels the stored handle, clears
the surface, and leaves nothing for the host to fire (no stray tick);
repeated `pause()` and repeated `resume()` are idempotent; `resume()`
re-arms only when not running and not reduced, and then resets the time
reference and schedules exactly one frame. -/
theorem C7_lifecycle (reduced : Bool) (c : Ctl) (hc : Reach reduced c)
    (now n1 n2 : ℚ) :
    c.host.pending.length ≤ 1 ∧
    (pauseCtl c).running = false ∧
    (pauseCtl c).rafId = none ∧
    (pauseCtl c).host.pending = [] ∧
    (pauseCtl c).cleared = true ∧
    pauseCtl (pauseCtl c) = pauseCtl c ∧
    resumeCtl reduced n2 (resumeCtl reduced n1 c) = resumeCtl reduced n1 c ∧
    (c.running = true → resumeCtl reduced now c = c) ∧
    (reduced = true → resumeCtl reduced now c = c) ∧
    (reduced = false → c.running = false →
      (resumeCtl reduced now c).running = true ∧
      (resumeCtl reduced now c).last = now ∧
      (resumeCtl reduced now c).host.pending.length = 1) := by
  obtain ⟨h1, h2⟩ := reach_inv hc
  refine ⟨?_, ?_, ?_, ?_, ?_, ?_, ?_, ?_, ?_, ?_⟩
  · rw [h1]; cases c.rafId <;> simp [Option.toList]
  · cases hr : c.rafId <;> simp [pauseCtl, hr]
  · cases hr : c.rafId <;> simp [pauseCtl, hr]
  · cases hr : c.rafId with
    | none =>
        have hp : c.host.pending = [] := by rw [h1, hr]; rfl
        simp [pauseCtl, hr, hp]
    | some id =>
        have hp : c.host.pending = [id] := by rw [h1, hr]; rfl
        simp [pauseCtl, hr, caf, hp]
  · cases hr : c.rafId <;> simp [pauseCtl, hr]
  · cases hr : c.rafId <;> simp [pauseCtl, caf, hr]
  · by_cases hg : reduced = false ∧ c.running = false
    · simp [resumeCtl, hg, raf]
    · simp [resumeCtl, hg]
  · intro hrun
    have : ¬(reduced = false ∧ c.running = false) := by simp [hrun]
    simp [resumeCtl, this]
  · intro hred
    have : ¬(reduced = false ∧ c.running = false) := by simp [hred]
    simp [resumeCtl, this]
  · intro hred hrun
    have hnone : c.rafId = none := h2 hrun
    have hp : c.host.pending = [] := by rw [h1, hnone]; rfl
    refine ⟨?_, ?_, ?_⟩ <;> simp [resumeCtl, hred, hrun, raf, hp]

/-- Witness for C7 at the concrete freshly constructed engine. -/
theorem C7_witness :
    Reach false (constructCtl false 0 { pending := [], nextId := 0 }) ∧
    ((constructCtl false 0 { pending := [], nextId := 0 }).host.pending.length ≤ 1 ∧
      (pauseCtl (constructCtl false 0 { pending := [], nextId := 0 })).running = false ∧
      (pauseCtl (constructCtl false 0 { pending := [], nextId := 0 })).rafId = none ∧
      (pauseCtl (constructCtl false 0 { pending := [], nextId := 0 })).host.pending = [] ∧
      (pauseCtl (constructCtl false 0 { pending := [], nextId := 0 })).cleared = true ∧
      pauseCtl (pauseCtl (constructCtl false 0 { pending := [], nextId := 0 }))
        = pauseCtl (constructCtl false 0 { pending := [], nextId := 0 }) ∧
      resumeCtl false 9 (resumeCtl false 8 (constructCtl false 0 { pending := [], nextId := 0 }))
        = resumeCtl false 8 (constructCtl false 0 { pending := [], nextId := 0 }) ∧
      ((constructCtl false 0 { pending := [], nextId := 0 }).running = true →
        resumeCtl false 7 (constructCtl false 0 { pending := [], nextId := 0 })
          = constructCtl false 0 { pending := [], nextId := 0 }) ∧
      (false = true →
        resumeCtl false 7 (constructCtl false 0 { pending := [], nextId := 0 })
          = constructCtl false 0 { pending := [], nextId := 0 }) ∧
      (false = false →
        (constructCtl false 0 { pending := [], nextId := 0 }).running = false →
        (resumeCtl false 7 (constructCtl false 0 { pending := [], nextId := 0 })).running = true ∧
        (resumeCtl false 7 (constructCtl false 0 { pending := [], nextId := 0 })).last = 7 ∧
        (resumeCtl false 7 (constructCtl false 0 { pending := [], nextId := 0 })).host.pending.length
          = 1)) :=
  ⟨Reach.construct 0 0,
    C7_lifecycle false (constructCtl false 0 { pending := [], nextId := 0 })
      (Reach.construct 0 0) 7 8 9⟩

/-- C2 counterexample: the claim says `setMode` discards the ripple list,
but `setMode` (src/script.js 261-279) never assigns `ripples`: switching
from monsoon to spring keeps an existing ripple alive. -/
theorem C2_counterexample :
    (setMode "spring" 3 100 100 (fun _ _ => 1/2) (fun _ => 1/2)
        { parts := [], ripples := [{ x := 5, y := 97, r := 2, alpha := 0.35 }],
          flares := [], mode := "monsoon" }).ripples ≠ [] := by
  simp [setMode]

/-- C2 (amended): after `setMode(s)` the pool size equals the season's
fixed capacity exactly (spring 110, summer 100, monsoon 140, autumn 120,
winter 90, prewinter 90); the flare list is discarded (and reseeded with
2-3 flares for summer); the ripple list, however, is left untouched. -/
theorem C2_amended (pi W H : ℚ) (G : Nat → Nat → ℚ) (fg : Nat → ℚ)
    (st : SimState) (h0 : 0 ≤ fg 0) (h1 : fg 0 < 1) :
    (setMode "spring" pi W H G fg st).parts.length = 110 ∧
    (setMode "summer" pi W H G fg st).parts.length = 100 ∧
    (setMode "monsoon" pi W H G fg st).parts.length = 140 ∧
    (setMode "autumn" pi W H G fg st).parts.length = 120 ∧
    (setMode "winter" pi W H G fg st).parts.length = 90 ∧
    (setMode "prewinter" pi W H G fg st).parts.length = 90 ∧
    (∀ m, m ≠ "summer" → (setMode m pi W H G fg st).flares = []) ∧
    2 ≤ (setMode "summer" pi W H G fg st).flares.length ∧
    (setMode "summer" pi W H G fg st).flares.length ≤ 3 ∧
    (∀ m, (setMode m pi W H G fg st).ripples = st.ripples) := by
  have hfl : (setMode "summer" pi W H G fg st).flares.length = flareCount fg := by
    simp [setMode]
  have hr2 : rnd (fg 0) 0 2 = fg 0 * 2 := by simp [rnd]
  have hf0 : 0 ≤ ⌊rnd (fg 0) 0 2⌋ := by
    rw [hr2]; exact Int.floor_nonneg.mpr (by positivity)
  have hf1 : ⌊rnd (fg 0) 0 2⌋ < 2 := by
    rw [hr2]; exact Int.floor_lt.mpr (by push_cast; linarith)
  refine ⟨?_, ?_, ?_, ?_, ?_, ?_, ?_, ?_, ?_, ?_⟩
  · simp [setMode, initPool, maxCounts]
  · simp [setMode, initPool, maxCounts]
  · simp [setMode, initPool, maxCounts]
  · simp [setMode, initPool, maxCounts]
  · simp [setMode, initPool, maxCounts]
  · simp [setMode, initPool, maxCounts]
  · intro m hm; simp [setMode, hm]
  · rw [hfl]; unfold flareCount; omega
  · rw [hfl]; unfold flareCount; omega
  · intro m; unfold setMode; split <;> rfl

/-- Witness for C2 (amended) at a concrete state and random source. -/
theorem C2_witness :
    (0 : ℚ) ≤ (fun _ : Nat => (1 : ℚ)/2) 0 ∧ (fun _ : Nat => (1 : ℚ)/2) 0 < 1 ∧
    ((setMode "spring" 3 100 100 (fun _ _ => 1/2) (fun _ => 1/2)
        { parts := [], ripples := [], flares := [], mode := "monsoon" }).parts.length = 110 ∧
      (setMode "summer" 3 100 100 (fun _ _ => 1/2) (fun _ => 1/2)
        { parts := [], ripples := [], flares := [], mode := "monsoon" }).parts.length = 100 ∧
      (setMode "monsoon" 3 100 100 (fun _ _ => 1/2) (fun _ => 1/2)
        { parts := [], ripples := [], flares := [], mode := "monsoon" }).parts.length = 140 ∧
      (setMode "autumn" 3 100 100 (fun _ _ => 1/2) (fun _ => 1/2)
        { parts := [], ripples := [], flares := [], mode := "monsoon" }).parts.length = 120 ∧
      (setMode "winter" 3 100 100 (fun _ _ => 1/2) (fun _ => 1/2)
        { parts := [], ripples := [], flares := [], mode := "monsoon" }).parts.length = 90 ∧
      (setMode "prewinter" 3 100 100 (fun _ _ => 1/2) (fun _ => 1/2)
        { parts := [], ripples := [], flares := [], mode := "monsoon" }).parts.length = 90 ∧
      (∀ m, m ≠ "summer" →
        (setMode m 3 100 100 (fun _ _ => 1/2) (fun _ => 1/2)
          { parts := [], ripples := [], flares := [], mode := "monsoon" }).flares = []) ∧
      2 ≤ (setMode "summer" 3 100 100 (fun _ _ => 1/2) (fun _ => 1/2)
        { parts := [], ripples := [], flares := [], mode := "monsoon" }).flares.length ∧
      (setMode "summer" 3 100 100 (fun _ _ => 1/2) (fun _ => 1/2)
        { parts := [], ripples := [], flares := [], mode := "monsoon" }).flares.length ≤ 3 ∧
      (∀ m, (setMode m 3 100 100 (fun _ _ => 1/2) (fun _ => 1/2)
        { parts := [], ripples := [], flares := [], mode := "monsoon" }).ripples = [])) :=
  ⟨by norm_num, by norm_num,
    C2_amended 3 100 100 (fun _ _ => 1/2) (fun _ => 1/2)
      { parts := [], ripples := [], flares := [], mode := "monsoon" }
      (by norm_num) (by norm_num)⟩

/-- C3 counterexample: the claim says the pointer-proximity force is a push
directed away from the pointer, but for a particle at distance 100 to the
right of the pointer (interaction on, motion not reduced, pointer at rest)
the velocity increment has negative dot product with the away-direction:
the force pulls the particle toward the pointer (src/script.js 322 adds
`(-dx / dist) * 0.04 * influence` with `dx = p.x - mouse.x`). -/
theorem C3_counterexample :
    (mouseKick true false 100 0 100 0 0).1 * 100
      + (mouseKick true false 100 0 100 0 0).2 * 0 < 0 := by
  norm_num [mouseKick, influence, max_def]

/-- C3 (amended): the pointer force is a pull directed toward the pointer
(negative dot product with the particle-minus-pointer vector), weighted by
the linear falloff `max 0 (1 - dist/180)` — so exactly zero at or beyond
180 units — plus a term scaled by pointer velocity; it is active only when
the particle-interaction toggle is on and motion is not reduced, and with
the toggle off the velocity update equals the zero-influence update. -/
theorem C3_amended (checked reduced : Bool) (dx dy dist mvx mvy : ℚ)
    (hdist : 0 < dist) :
    (mouseKick checked reduced dx dy dist mvx mvy).1
      = -dx / dist * 0.04 * influence checked reduced dist
        + mvx * 0.002 * influence checked reduced dist ∧
    (mouseKick checked reduced dx dy dist mvx mvy).2
      = -dy / dist * 0.02 * influence checked reduced dist
        + mvy * 0.002 * influence checked reduced dist ∧
    (180 ≤ dist → mouseKick checked reduced dx dy dist mvx mvy = (0, 0)) ∧
    (checked = false → mouseKick checked reduced dx dy dist mvx mvy = (0, 0)) ∧
    (reduced = true → mouseKick checked reduced dx dy dist mvx mvy = (0, 0)) ∧
    (checked = true → reduced = false → dist < 180 → ¬(dx = 0 ∧ dy = 0) →
      -dx / dist * 0.04 * influence checked reduced dist * dx
        + -dy / dist * 0.02 * influence checked reduced dist * dy < 0) := by
  refine ⟨rfl, rfl, ?_, ?_, ?_, ?_⟩
  · intro h180
    have hinf : influence checked reduced dist = 0 := by
      unfold influence
      split
      · refine max_eq_left ?_
        rw [sub_nonpos, le_div_iff₀ (by norm_num : (0:ℚ) < 180)]
        linarith
      · rfl
    simp [mouseKick, hinf]
  · intro hch; simp [mouseKick, influence, hch]
  · intro hrd; simp [mouseKick, influence, hrd]
  · intro hch hrd hlt hne
    have he : 0 < 1 - dist / 180 := by
      rw [sub_pos]
      exact (div_lt_one (by norm_num)).mpr hlt
    have hinf : influence checked reduced dist = 1 - dist / 180 := by
      unfold influence
      rw [if_pos ⟨hch, hrd⟩]
      exact max_eq_right he.le
    have hs : 0 < 0.04 * dx ^ 2 + 0.02 * dy ^ 2 := by
      rcases not_and_or.mp hne with h | h
      · rcases lt_or_gt_of_ne h with h' | h' <;> nlinarith [sq_nonneg dy]
      · rcases lt_or_gt_of_ne h with h' | h' <;> nlinarith [sq_nonneg dx]
    have key : -dx / dist * 0.04 * (1 - dist / 180) * dx
        + -dy / dist * 0.02 * (1 - dist / 180) * dy
        = -(dist⁻¹ * ((1 - dist / 180) * (0.04 * dx ^ 2 + 0.02 * dy ^ 2))) := by
      field_simp
      ring
    rw [hinf, key]
    exact neg_lt_zero.mpr (mul_pos (inv_pos.mpr hdist) (mul_pos he hs))

/-- Witness for C3 (amended) at a pointer offset of (3, 4), distance 5. -/
theorem C3_witness :
    (0 : ℚ) < 5 ∧
    ((mouseKick true false 3 4 5 7 7).1
        = -3 / 5 * 0.04 * influence true false 5 + 7 * 0.002 * influence true false 5 ∧
      (mouseKick true false 3 4 5 7 7).2
        = -4 / 5 * 0.02 * influence true false 5 + 7 * 0.002 * influence true false 5 ∧
      ((180 : ℚ) ≤ 5 → mouseKick true false 3 4 5 7 7 = (0, 0)) ∧
      (true = false → mouseKick true false 3 4 5 7 7 = (0, 0)) ∧
      (false = true → mouseKick true false 3 4 5 7 7 = (0, 0)) ∧
      (true = true → false = false → (5 : ℚ) < 180 → ¬((3 : ℚ) = 0 ∧ (4 : ℚ) = 0) →
        -3 / 5 * 0.04 * influence true false 5 * 3
          + -4 / 5 * 0.02 * influence true false 5 * 4 < 0)) :=
  ⟨by norm_num, C3_amended true false 3 4 5 7 7 (by norm_num)⟩

/-- C4 counterexample: the claim says an unknown season falls back to a
"prewinter"-equivalent parameter set, but the final `else` of `newParticle`
(src/script.js 232-245) is the winter branch: with the same random draws an
unknown season yields a "snow" particle while prewinter yields a "dewdrop". -/
theorem C4_counterexample :
    (newParticle "nosuch" 3 100 100 fun _ => 1/2).type = "snow" ∧
    (newParticle "prewinter" 3 100 100 fun _ => 1/2).type = "dewdrop" ∧
    (newParticle "nosuch" 3 100 100 fun _ => 1/2).type
      ≠ (newParticle "prewinter" 3 100 100 fun _ => 1/2).type := by
  refine ⟨?_, ?_, ?_⟩
  · simp [newParticle]
    norm_num
  · simp [newParticle]
    norm_num
  · simp [newParticle]
    norm_num
    decide

/-- C4 (amended): for any season argument outside the six enumerated
values, particle creation falls back silently to the *winter*-equivalent
parameter set (the final `else` branch: ember/snow), and pool sizing falls
back to 90 (`maxCounts[mode] || 90`); no error is surfaced.  (90 happens to
coincide with both winter's and prewinter's capacity, but the particle
parameters are winter's, not prewinter's.) -/
theorem C4_amended (m : String) (pi W H : ℚ) (g : Nat → ℚ) (G : Nat → Nat → ℚ)
    (fg : Nat → ℚ) (st : SimState)
    (h1 : m ≠ "spring") (h2 : m ≠ "summer") (h3 : m ≠ "monsoon")
    (h4 : m ≠ "autumn") (h5 : m ≠ "prewinter") (h6 : m ≠ "winter") :
    newParticle m pi W H g = newParticle "winter" pi W H g ∧
    (setMode m pi W H G fg st).parts.length = 90 ∧
    (setMode m pi W H G fg st).flares = [] := by
  refine ⟨?_, ?_, ?_⟩
  · simp only [newParticle, if_neg h1, if_neg h2, if_neg h3, if_neg h4, if_neg h5]
    simp
  · have hmc : maxCounts m = none := by
      simp [maxCounts, h1, h2, h3, h4, h5, h6]
    unfold setMode
    split <;> simp [initPool, hmc]
  · simp [setMode, h2]

/-- Witness for C4 (amended) at the concrete unknown season "nosuch". -/
theorem C4_witness :
    ("nosuch" ≠ "spring") ∧ ("nosuch" ≠ "summer") ∧ ("nosuch" ≠ "monsoon") ∧
    ("nosuch" ≠ "autumn") ∧ ("nosuch" ≠ "prewinter") ∧ ("nosuch" ≠ "winter") ∧
    (newParticle "nosuch" 3 100 100 (fun _ => 1/2)
      = newParticle "winter" 3 100 100 (fun _ => 1/2) ∧
    (setMode "nosuch" 3 100 100 (fun _ _ => 1/2) (fun _ => 1/2)
      { parts := [], ripples := [], flares := [], mode := "monsoon" }).parts.length = 90 ∧
    (setMode "nosuch" 3 100 100 (fun _ _ => 1/2) (fun _ => 1/2)
      { parts := [], ripples := [], flares := [], mode := "monsoon" }).flares = []) :=
  ⟨by decide, by decide, by decide, by decide, by decide, by decide,
    C4_amended "nosuch" 3 100 100 (fun _ => 1/2) (fun _ _ => 1/2) (fun _ => 1/2)
      { parts := [], ripples := [], flares := [], mode := "monsoon" }
      (by decide) (by decide) (by decide) (by decide) (by decide) (by decide)⟩

/-- C5 counterexample: in the claimed monsoon scenario (one tick, dt = 16,
no pointer influence) a particle with vertical velocity 1 ends the tick
with vy = (1 + 0.02) * 0.997 = 1.01694, an increase of 0.01694 — not
exactly the downward-pull constant 0.02: the damping of line 357 follows
the pull of line 335. -/
theorem C5_counterexample :
    (updateParticle "monsoon" false false (fun _ => 0) 100 100 16 (dtOf 16 0)
        { x := 0, y := 0, vx := 0, vy := 0 } 1
        { x := 50, y := 50, vx := 0, vy := 1, r := 1.3, ang := 0, spin := 0,
          type := "rain", alpha := 1, color := "rgba(170,210,240,0.98)",
          z := 1 }).vy - 1 ≠ 0.02 := by
  simp [updateParticle, mouseKick, influence, seasonForce, integrate, dtOf]
  norm_num

/-- C5 (amended): for an engine in monsoon mode, one tick with elapsed time
16 and zero pointer influence (interaction toggle off) adds exactly
0.02 * (16/16) to every particle's vertical velocity *before damping*; the
end-of-tick vertical velocity is (vy + 0.02) * 0.997; and a rain particle
produces exactly one new ripple, at (updated x, surface height - 3),
precisely when its updated y exceeds (surface height - 2). -/
theorem C5_amended (sinF : ℚ → ℚ) (pi W H now last : ℚ) (m : MouseState)
    (dist : ℚ) (g : Nat → ℚ) (p : Particle) (htype : p.type = "rain")
    (hdt : now - last = 16) :
    dtOf now last = 16 ∧
    (seasonForce sinF "monsoon" W H now (dtOf now last) p).vy
      = p.vy + 0.02 * (16 / 16) ∧
    (updateParticle "monsoon" false false sinF W H now (dtOf now last) m dist p).vy
      = (p.vy + 0.02) * 0.997 ∧
    (stepSlot "monsoon" false false sinF pi W H now (dtOf now last) m dist g p).2
      = (if (updateParticle "monsoon" false false sinF W H now
              (dtOf now last) m dist p).y > H - 2
         then some { x := (updateParticle "monsoon" false false sinF W H now
                            (dtOf now last) m dist p).x,
                     y := H - 3, r := 2, alpha := 0.35 }
         else none) := by
  have hdt16 : dtOf now last = 16 := by
    unfold dtOf; rw [hdt]; norm_num
  refine ⟨hdt16, ?_, ?_, ?_⟩
  · rw [hdt16]; simp [seasonForce]
  · rw [hdt16]
    simp [updateParticle, mouseKick, influence, seasonForce, integrate]
  · simp [stepSlot, updateParticle, mouseKick, influence, seasonForce,
      integrate, addRipple, htype]

/-- Witness for C5 (amended) at the concrete rain particle `sampleRain`. -/
theorem C5_witness :
    sampleRain.type = "rain" ∧ (16 : ℚ) - 0 = 16 ∧
    (dtOf 16 0 = 16 ∧
      (seasonForce (fun _ => 0) "monsoon" 100 100 16 (dtOf 16 0) sampleRain).vy
        = sampleRain.vy + 0.02 * (16 / 16) ∧
      (updateParticle "monsoon" false false (fun _ => 0) 100 100 16 (dtOf 16 0)
          { x := 0, y := 0, vx := 0, vy := 0 } 1 sampleRain).vy
        = (sampleRain.vy + 0.02) * 0.997 ∧
      (stepSlot "monsoon" false false (fun _ => 0) 3 100 100 16 (dtOf 16 0)
          { x := 0, y := 0, vx := 0, vy := 0 } 1 (fun _ => 1/2) sampleRain).2
        = (if (updateParticle "monsoon" false false (fun _ => 0) 100 100 16
                (dtOf 16 0) { x := 0, y := 0, vx := 0, vy := 0 } 1 sampleRain).y
              > (100 : ℚ) - 2
           then some { x := (updateParticle "monsoon" false false (fun _ => 0)
                              100 100 16 (dtOf 16 0)
                              { x := 0, y := 0, vx := 0, vy := 0 } 1 sampleRain).x,
                       y := (100 : ℚ) - 3, r := 2, alpha := 0.35 }
           else none)) :=
  ⟨rfl, by norm_num,
    C5_amended (fun _ => 0) 3 100 100 16 0 { x := 0, y := 0, vx := 0, vy := 0 }
      1 (fun _ => 1/2) sampleRain rfl (by norm_num)⟩

theorem stepParts_length (mode : String) (checked reduced : Bool)
    (sinF : ℚ → ℚ) (pi W H now dt : ℚ) (m : MouseState) (dists : Nat → ℚ)
    (G : Nat → Nat → ℚ) :
    ∀ (i : Nat) (ps : List Particle),
      (stepParts mode checked reduced sinF pi W H now dt m dists G i ps).1.length
        = ps.length := by
  intro i ps
  induction ps generalizing i with
  | nil => rfl
  | cons p rest ih => simp [stepParts, ih]

/-- C6: a tick never grows or shrinks the pool — each slot is transformed
in place — and any particle whose updated position is out of bounds
(y > H + 80, x < -140, x > W + 140, or y < -140) has its slot overwritten
with a freshly factory-built particle whose position is overridden to
x in [0, W) and y in (-50, -10], i.e. just above the top edge. -/
theorem C6_recycling (mode : String) (checked reduced : Bool) (sinF : ℚ → ℚ)
    (pi W H now dt : ℚ) (m : MouseState) (dists : Nat → ℚ) (G : Nat → Nat → ℚ)
    (i : Nat) (parts : List Particle) (dist : ℚ) (g : Nat → ℚ) (p : Particle)
    (hW : 0 < W) (hx0 : 0 ≤ g 100) (hx1 : g 100 < 1)
    (hy0 : 0 ≤ g 101) (hy1 : g 101 < 1)
    (hout : outOfBounds W H
      (updateParticle mode checked reduced sinF W H now dt m dist p)) :
    (stepParts mode checked reduced sinF pi W H now dt m dists G i parts).1.length
      = parts.length ∧
    (stepSlot mode checked reduced sinF pi W H now dt m dist g p).1
      = { newParticle mode pi W H g with x := g 100 * W, y := -10 - g 101 * 40 } ∧
    0 ≤ (stepSlot mode checked reduced sinF pi W H now dt m dist g p).1.x ∧
    (stepSlot mode checked reduced sinF pi W H now dt m dist g p).1.x < W ∧
    -50 < (stepSlot mode checked reduced sinF pi W H now dt m dist g p).1.y ∧
    (stepSlot mode checked reduced sinF pi W H now dt m dist g p).1.y ≤ -10 := by
  have hslot : (stepSlot mode checked reduced sinF pi W H now dt m dist g p).1
      = { newParticle mode pi W H g with x := g 100 * W, y := -10 - g 101 * 40 } := by
    simp [stepSlot, hout]
  refine ⟨stepParts_length mode checked reduced sinF pi W H now dt m dists G i parts,
    hslot, ?_, ?_, ?_, ?_⟩ <;> rw [hslot]
  · exact mul_nonneg hx0 hW.le
  · calc g 100 * W < 1 * W := mul_lt_mul_of_pos_right hx1 hW
      _ = W := one_mul W
  · show (-50 : ℚ) < -10 - g 101 * 40
    linarith
  · show (-10 : ℚ) - g 101 * 40 ≤ -10
    linarith

/-- Witness for C6 at a concrete far-out-of-bounds rain particle. -/
theorem C6_witness :
    (0 : ℚ) < 100 ∧ (0 : ℚ) ≤ (1 : ℚ)/2 ∧ (1 : ℚ)/2 < 1 ∧
    outOfBounds 100 100
      (updateParticle "monsoon" false false (fun _ => 0) 100 100 16 16
        { x := 0, y := 0, vx := 0, vy := 0 } 1 { sampleRain with y := 10000 }) ∧
    ((stepParts "monsoon" false false (fun _ => 0) 3 100 100 16 16
        { x := 0, y := 0, vx := 0, vy := 0 } (fun _ => 1) (fun _ _ => 1/2) 0
        []).1.length = ([] : List Particle).length ∧
      (stepSlot "monsoon" false false (fun _ => 0) 3 100 100 16 16
          { x := 0, y := 0, vx := 0, vy := 0 } 1 (fun _ => 1/2)
          { sampleRain with y := 10000 }).1
        = { newParticle "monsoon" 3 100 100 (fun _ => 1/2) with
            x := (1 : ℚ)/2 * 100, y := -10 - (1 : ℚ)/2 * 40 } ∧
      0 ≤ (stepSlot "monsoon" false false (fun _ => 0) 3 100 100 16 16
          { x := 0, y := 0, vx := 0, vy := 0 } 1 (fun _ => 1/2)
          { sampleRain with y := 10000 }).1.x ∧
      (stepSlot "monsoon" false false (fun _ => 0) 3 100 100 16 16
          { x := 0, y := 0, vx := 0, vy := 0 } 1 (fun _ => 1/2)
          { sampleRain with y := 10000 }).1.x < 100 ∧
      -50 < (stepSlot "monsoon" false false (fun _ => 0) 3 100 100 16 16
          { x := 0, y := 0, vx := 0, vy := 0 } 1 (fun _ => 1/2)
          { sampleRain with y := 10000 }).1.y ∧
      (stepSlot "monsoon" false false (fun _ => 0) 3 100 100 16 16
          { x := 0, y := 0, vx := 0, vy := 0 } 1 (fun _ => 1/2)
          { sampleRain with y := 10000 }).1.y ≤ -10) :=
  ⟨by norm_num, by norm_num, by norm_num,
    by
      simp [outOfBounds, updateParticle, mouseKick, influence, seasonForce,
        integrate, sampleRain]
      norm_num,
    C6_recycling "monsoon" false false (fun _ => 0) 3 100 100 16 16
      { x := 0, y := 0, vx := 0, vy := 0 } (fun _ => 1) (fun _ _ => 1/2) 0 []
      1 (fun _ => 1/2) { sampleRain with y := 10000 }
      (by norm_num) (by norm_num) (by norm_num) (by norm_num) (by norm_num)
      (by
        simp [outOfBounds, updateParticle, mouseKick, influence, seasonForce,
          integrate, sampleRain]
        norm_num)⟩

/-- C8: the elapsed time used by a tick is `min 40 (now - last)` — capped at
40, and equal to the true elapsed time when that is at most 40; damping
multiplies vx by 0.995 and vy by 0.997 exactly once, independent of the
elapsed time; position advances by the damped velocity times (dt/16) times
the particle's depth factor z; and the full per-tick particle update is the
mouse kick, then season forces, then this damping-and-integration. -/
theorem C8_integration (sinF : ℚ → ℚ) (mode : String) (checked reduced : Bool)
    (W H now last dt1 dt2 : ℚ) (m : MouseState) (dist : ℚ) (q : Particle) :
    dtOf now last ≤ 40 ∧
    (40 ≤ now - last → dtOf now last = 40) ∧
    (now - last ≤ 40 → dtOf now last = now - last) ∧
    (integrate dt1 q).vx = (integrate dt2 q).vx ∧
    (integrate dt1 q).vy = (integrate dt2 q).vy ∧
    (integrate dt1 q).vx = q.vx * 0.995 ∧
    (integrate dt1 q).vy = q.vy * 0.997 ∧
    (integrate dt1 q).x = q.x + q.vx * 0.995 * (dt1 / 16) * q.z ∧
    (integrate dt1 q).y = q.y + q.vy * 0.997 * (dt1 / 16) * q.z ∧
    updateParticle mode checked reduced sinF W H now dt1 m dist q
      = integrate dt1 (seasonForce sinF mode W H now dt1
          { q with
            vx := q.vx + (mouseKick checked reduced (q.x - m.x) (q.y - m.y)
                            dist m.vx m.vy).1
            vy := q.vy + (mouseKick checked reduced (q.x - m.x) (q.y - m.y)
                            dist m.vx m.vy).2 }) := by
  refine ⟨min_le_left 40 (now - last), fun h => min_eq_left h,
    fun h => min_eq_right h, rfl, rfl, rfl, rfl, rfl, rfl, rfl⟩

/-- Witness for C8 at a concrete particle and elapsed times 16 and 32. -/
theorem C8_witness :
    dtOf 16 0 ≤ 40 ∧
    ((40 : ℚ) ≤ 16 - 0 → dtOf 16 0 = 40) ∧
    ((16 : ℚ) - 0 ≤ 40 → dtOf 16 0 = 16 - 0) ∧
    (integrate 16 sampleRain).vx = (integrate 32 sampleRain).vx ∧
    (integrate 16 sampleRain).vy = (integrate 32 sampleRain).vy ∧
    (integrate 16 sampleRain).vx = sampleRain.vx * 0.995 ∧
    (integrate 16 sampleRain).vy = sampleRain.vy * 0.997 ∧
    (integrate 16 sampleRain).x
      = sampleRain.x + sampleRain.vx * 0.995 * (16 / 16) * sampleRain.z ∧
    (integrate 16 sampleRain).y
      = sampleRain.y + sampleRain.vy * 0.997 * (16 / 16) * sampleRain.z ∧
    updateParticle "monsoon" false false (fun _ => 0) 100 100 16 16
        { x := 0, y := 0, vx := 0, vy := 0 } 1 sampleRain
      = integrate 16 (seasonForce (fun _ => 0) "monsoon" 100 100 16 16
          { sampleRain with
            vx := sampleRain.vx + (mouseKick false false (sampleRain.x - 0)
                    (sampleRain.y - 0) 1 0 0).1
            vy := sampleRain.vy + (mouseKick false false (sampleRain.x - 0)
                    (sampleRain.y - 0) 1 0 0).2 }) :=
  C8_integration (fun _ => 0) "monsoon" false false 100 100 16 0 16 32
    { x := 0, y := 0, vx := 0, vy := 0 } 1 sampleRain

/-- C9: `reflow()` changes only the position fields of a particle — it
re-clamps x into [0, W] and y into [-50, H + 50] (a 50-unit vertical
overscan) and leaves velocity, kind and every other field unchanged. -/
theorem C9_reflow (W H : ℚ) (p : Particle) (hW : W ≠ 0) (hH : H ≠ 0)
    (hW0 : 0 ≤ W) (hH0 : 0 ≤ H) :
    (reflowParticle W H p).vx = p.vx ∧
    (reflowParticle W H p).vy = p.vy ∧
    (reflowParticle W H p).type = p.type ∧
    (reflowParticle W H p).r = p.r ∧
    (reflowParticle W H p).ang = p.ang ∧
    (reflowParticle W H p).spin = p.spin ∧
    (reflowParticle W H p).alpha = p.alpha ∧
    (reflowParticle W H p).color = p.color ∧
    (reflowParticle W H p).z = p.z ∧
    (reflowParticle W H p).x = clamp p.x 0 W ∧
    (reflowParticle W H p).y = clamp p.y (-50) (H + 50) ∧
    0 ≤ (reflowParticle W H p).x ∧ (reflowParticle W H p).x ≤ W ∧
    -50 ≤ (reflowParticle W H p).y ∧ (reflowParticle W H p).y ≤ H + 50 ∧
    reflow W H [p] = [reflowParticle W H p] := by
  have hx : p.x / W * W = p.x := div_mul_cancel₀ p.x hW
  have hy : p.y / H * H = p.y := div_mul_cancel₀ p.y hH
  refine ⟨rfl, rfl, rfl, rfl, rfl, rfl, rfl, rfl, rfl, ?_, ?_, ?_, ?_, ?_, ?_, rfl⟩
  · simp [reflowParticle, hx]
  · simp [reflowParticle, hy]
  · exact le_max_left 0 _
  · exact max_le hW0 (min_le_left W _)
  · exact le_max_left (-50) _
  · exact max_le (by linarith) (min_le_left (H + 50) _)

/-- Witness for C9 at a concrete particle on a 200x150 surface. -/
theorem C9_witness :
    (200 : ℚ) ≠ 0 ∧ (150 : ℚ) ≠ 0 ∧ (0 : ℚ) ≤ 200 ∧ (0 : ℚ) ≤ 150 ∧
    ((reflowParticle 200 150 sampleRain).vx = sampleRain.vx ∧
      (reflowParticle 200 150 sampleRain).vy = sampleRain.vy ∧
      (reflowParticle 200 150 sampleRain).type = sampleRain.type ∧
      (reflowParticle 200 150 sampleRain).r = sampleRain.r ∧
      (reflowParticle 200 150 sampleRain).ang = sampleRain.ang ∧
      (reflowParticle 200 150 sampleRain).spin = sampleRain.spin ∧
      (reflowParticle 200 150 sampleRain).alpha = sampleRain.alpha ∧
      (reflowParticle 200 150 sampleRain).color = sampleRain.color ∧
      (reflowParticle 200 150 sampleRain).z = sampleRain.z ∧
      (reflowParticle 200 150 sampleRain).x = clamp sampleRain.x 0 200 ∧
      (reflowParticle 200 150 sampleRain).y = clamp sampleRain.y (-50) (150 + 50) ∧
      0 ≤ (reflowParticle 200 150 sampleRain).x ∧
      (reflowParticle 200 150 sampleRain).x ≤ 200 ∧
      -50 ≤ (reflowParticle 200 150 sampleRain).y ∧
      (reflowParticle 200 150 sampleRain).y ≤ 150 + 50 ∧
      reflow 200 150 [sampleRain] = [reflowParticle 200 150 sampleRain]) :=
  ⟨by norm_num, by norm_num, by norm_num, by norm_num,
    C9_reflow 200 150 sampleRain (by norm_num) (by norm_num)
      (by norm_num) (by norm_num)⟩

/-- C10: a rain particle spawns one ripple at (updated x, H - 3) on every
tick whose updated y exceeds H - 2 — not only at first impact; its slot
keeps the particle until it is out of bounds (y > H + 80 among others), so
the same raindrop spawns another ripple on the next tick if it is still
past the lower edge. -/
theorem C10_repeated_ripples (checked reduced : Bool) (sinF : ℚ → ℚ)
    (pi W H now1 dt1 now2 dt2 : ℚ) (m1 m2 : MouseState) (d1 d2 : ℚ)
    (g1 g2 : Nat → ℚ) (p : Particle) (htype : p.type = "rain") :
    (updateParticle "monsoon" checked reduced sinF W H now1 dt1 m1 d1 p).type
      = "rain" ∧
    ((updateParticle "monsoon" checked reduced sinF W H now1 dt1 m1 d1 p).y
        > H - 2 →
      (stepSlot "monsoon" checked reduced sinF pi W H now1 dt1 m1 d1 g1 p).2
        = some { x := (updateParticle "monsoon" checked reduced sinF W H
                        now1 dt1 m1 d1 p).x,
                 y := H - 3, r := 2, alpha := 0.35 }) ∧
    (¬ outOfBounds W H
        (updateParticle "monsoon" checked reduced sinF W H now1 dt1 m1 d1 p) →
      (stepSlot "monsoon" checked reduced sinF pi W H now1 dt1 m1 d1 g1 p).1
        = updateParticle "monsoon" checked reduced sinF W H now1 dt1 m1 d1 p) ∧
    (¬ outOfBounds W H
        (updateParticle "monsoon" checked reduced sinF W H now1 dt1 m1 d1 p) →
      (updateParticle "monsoon" checked reduced sinF W H now2 dt2 m2 d2
          (updateParticle "monsoon" checked reduced sinF W H now1 dt1 m1 d1
            p)).y > H - 2 →
      (stepSlot "monsoon" checked reduced sinF pi W H now2 dt2 m2 d2 g2
          ((stepSlot "monsoon" checked reduced sinF pi W H now1 dt1 m1 d1 g1
            p).1)).2
        = some { x := (updateParticle "monsoon" checked reduced sinF W H
                        now2 dt2 m2 d2
                        (updateParticle "monsoon" checked reduced sinF W H
                          now1 dt1 m1 d1 p)).x,
                 y := H - 3, r := 2, alpha := 0.35 }) := by
  have hty : ∀ (nw dtq : ℚ) (mm : MouseState) (dd : ℚ) (q : Particle),
      (updateParticle "monsoon" checked reduced sinF W H nw dtq mm dd q).type
        = q.type := by
    intro nw dtq mm dd q
    simp [updateParticle, mouseKick, seasonForce, integrate]
  refine ⟨?_, ?_, ?_, ?_⟩
  · rw [hty]; exact htype
  · intro hy
    simp [stepSlot, addRipple, hty, htype, hy]
  · intro hnb
    simp [stepSlot, hnb]
  · intro hnb hy2
    have hkeep : (stepSlot "monsoon" checked reduced sinF pi W H now1 dt1 m1
        d1 g1 p).1 = updateParticle "monsoon" checked reduced sinF W H now1
        dt1 m1 d1 p := by
      simp [stepSlot, hnb]
    rw [hkeep]
    simp [stepSlot, addRipple, hty, htype, hy2]

/-- Witness for C10: the concrete raindrop `sampleRain` stays past the
lower edge of the 100x100 surface across two consecutive ticks and spawns
one ripple on each. -/
theorem C10_witness :
    sampleRain.type = "rain" ∧
    ((updateParticle "monsoon" false false (fun _ => 0) 100 100 16 16
        { x := 0, y := 0, vx := 0, vy := 0 } 1 sampleRain).type = "rain" ∧
      ((updateParticle "monsoon" false false (fun _ => 0) 100 100 16 16
          { x := 0, y := 0, vx := 0, vy := 0 } 1 sampleRain).y > (100 : ℚ) - 2 →
        (stepSlot "monsoon" false false (fun _ => 0) 3 100 100 16 16
            { x := 0, y := 0, vx := 0, vy := 0 } 1 (fun _ => 1/2) sampleRain).2
          = some { x := (updateParticle "monsoon" false false (fun _ => 0)
                          100 100 16 16 { x := 0, y := 0, vx := 0, vy := 0 } 1
                          sampleRain).x,
                   y := (100 : ℚ) - 3, r := 2, alpha := 0.35 }) ∧
      (¬ outOfBounds 100 100
          (updateParticle "monsoon" false false (fun _ => 0) 100 100 16 16
            { x := 0, y := 0, vx := 0, vy := 0 } 1 sampleRain) →
        (stepSlot "monsoon" false false (fun _ => 0) 3 100 100 16 16
            { x := 0, y := 0, vx := 0, vy := 0 } 1 (fun _ => 1/2) sampleRain).1
          = updateParticle "monsoon" false false (fun _ => 0) 100 100 16 16
              { x := 0, y := 0, vx := 0, vy := 0 } 1 sampleRain) ∧
      (¬ outOfBounds 100 100
          (updateParticle "monsoon" false false (fun _ => 0) 100 100 16 16
            { x := 0, y := 0, vx := 0, vy := 0 } 1 sampleRain) →
        (updateParticle "monsoon" false false (fun _ => 0) 100 100 32 16
            { x := 0, y := 0, vx := 0, vy := 0 } 1
            (updateParticle "monsoon" false false (fun _ => 0) 100 100 16 16
              { x := 0, y := 0, vx := 0, vy := 0 } 1 sampleRain)).y
          > (100 : ℚ) - 2 →
        (stepSlot "monsoon" false false (fun _ => 0) 3 100 100 32 16
            { x := 0, y := 0, vx := 0, vy := 0 } 1 (fun _ => 1/2)
            ((stepSlot "monsoon" false false (fun _ => 0) 3 100 100 16 16
              { x := 0, y := 0, vx := 0, vy := 0 } 1 (fun _ => 1/2)
              sampleRain).1)).2
          = some { x := (updateParticle "monsoon" false false (fun _ => 0)
                          100 100 32 16 { x := 0, y := 0, vx := 0, vy := 0 } 1
                          (updateParticle "monsoon" false false (fun _ => 0)
                            100 100 16 16 { x := 0, y := 0, vx := 0, vy := 0 }
                            1 sampleRain)).x,
                   y := (100 : ℚ) - 3, r := 2, alpha := 0.35 })) :=
  ⟨rfl,
    C10_repeated_ripples false false (fun _ => 0) 3 100 100 16 16 32 16
      { x := 0, y := 0, vx := 0, vy := 0 } { x := 0, y := 0, vx := 0, vy := 0 }
      1 1 (fun _ => 1/2) (fun _ => 1/2) sampleRain rfl⟩

end GreetEngine
